import Mathlib

/-!
# Verification of `smonn/storage` (src/index.ts)

Shallow embedding of the promise-based IndexedDB key/value storage facade.

* Configuration model: `StorageOptions`, `defaultOptions`, `assignOptions`
  (the `Object.assign({}, defaultOptions, options)` merge) and
  `createInstanceChecks` (the three `invariant` calls in `createInstance`).
* Event wiring: for each operation, the set of `addEventListener` calls it
  makes and whether the listener resolves or rejects the promise.
* Store semantics: the underlying engine's object store is modelled as an
  association list ordered by ascending key (IndexedDB's natural key order),
  with `put` / `get` / `delete` / `clear` / `getAllKeys` / `count`.
* Instance state: the lazily connected `db` handle plus the persisted store;
  each public operation is a state transition.
* The async iterator (`asyncIterator`): cached key snapshot plus advancing
  index, including the `if (key)` falsiness check on each fetched key.
* A small interleaving model of `db = db ?? (await connect(config))` for the
  concurrent-first-open question.
-/

namespace Storage

/-! ## Configuration (`StorageOptions`, `defaultOptions`, `createInstance`) -/

/-- Record `StorageOptions` from src/index.ts. `databaseVersion` is a JS number,
modelled as `ℚ` so that non-integer versions are representable. -/
structure StorageOptions where
  databaseName : String
  databaseVersion : ℚ
  tableName : String
  deriving DecidableEq, Repr

/-- Partial configuration (`Partial<StorageOptions>`): each field may be absent. -/
structure PartialStorageOptions where
  databaseName : Option String := none
  databaseVersion : Option ℚ := none
  tableName : Option String := none
  deriving DecidableEq, Repr

/-- Constant `defaultOptions` from src/index.ts lines 45-49. -/
def defaultOptions : StorageOptions :=
  { databaseName := "smonn_storage"
    databaseVersion := 1
    tableName := "kv" }

/-- Merge `Object.assign({}, defaultOptions, options)` in `createInstance`:
a field present in `options` overrides the default, an absent field keeps
the default. -/
def assignOptions (options : PartialStorageOptions) : StorageOptions :=
  { databaseName := options.databaseName.getD defaultOptions.databaseName
    databaseVersion := options.databaseVersion.getD defaultOptions.databaseVersion
    tableName := options.tableName.getD defaultOptions.tableName }

/-- The three `invariant` calls in `createInstance` (src/index.ts lines 57-71),
run synchronously in order; the first failing one throws a `TypeError` with
the given message. The `typeof x === "string"` / `"number"` halves of the
conditions are enforced by the field types of the embedding; the residual
runtime content is `databaseName.length > 0`, `databaseVersion > 0` and
`tableName.length > 0` — there is no integrality check on the version. -/
def createInstanceChecks (config : StorageOptions) : Except String StorageOptions :=
  if 0 < config.databaseName.length then
    if 0 < config.databaseVersion then
      if 0 < config.tableName.length then
        Except.ok config
      else
        Except.error "tableName must be a string"
    else
      Except.error "databaseVersion must be a number"
  else
    Except.error "databaseName must be a string"

/-! ## Event wiring of each operation's promise

Each operation returns a `new Promise` and attaches listeners to the
transaction and the request. The promise settles with the first event among
those listened for. `DBEvent` enumerates the four relevant events; each
operation's wiring maps an event to `some resolve` / `some reject` when the
source attaches a listener for it, `none` when it does not. -/

inductive DBEvent where
  | requestSuccess
  | requestError
  | txError
  | txComplete
  deriving DecidableEq, Repr, Fintype

inductive Settlement where
  | resolve
  | reject
  deriving DecidableEq, Repr

/-- Wiring of `setItem` (src lines 76-96): transaction `error` → reject, transaction
`complete` → resolve, request `error` → reject; no request `success`
listener. -/
def setItemListeners : DBEvent → Option Settlement
  | .txError => some .reject
  | .txComplete => some .resolve
  | .requestError => some .reject
  | .requestSuccess => none

/-- Wiring of `removeItem` (src lines 147-167): same as `setItem`. -/
def removeItemListeners : DBEvent → Option Settlement
  | .txError => some .reject
  | .txComplete => some .resolve
  | .requestError => some .reject
  | .requestSuccess => none

/-- Wiring of `clear` (src lines 127-141): request `error` → reject, request `success`
→ resolve; no transaction-level listeners at all. -/
def clearListeners : DBEvent → Option Settlement
  | .requestError => some .reject
  | .requestSuccess => some .resolve
  | .txError => none
  | .txComplete => none

/-- Wiring of `getItem` (src lines 102-121): transaction `error` → reject, request
`error` → reject, request `success` → resolve. -/
def getItemListeners : DBEvent → Option Settlement
  | .txError => some .reject
  | .requestError => some .reject
  | .requestSuccess => some .resolve
  | .txComplete => none

/-- Wiring of `keys` (src lines 173-192): same as `getItem`. -/
def keysListeners : DBEvent → Option Settlement
  | .txError => some .reject
  | .requestError => some .reject
  | .requestSuccess => some .resolve
  | .txComplete => none

/-- Wiring of `size` (src lines 229-248): same as `getItem`. -/
def sizeListeners : DBEvent → Option Settlement
  | .txError => some .reject
  | .requestError => some .reject
  | .requestSuccess => some .resolve
  | .txComplete => none

/-- A promise settles exactly once, with the action of the first fired event
that has a listener attached. -/
def settleFirst (listeners : DBEvent → Option Settlement) :
    List DBEvent → Option Settlement
  | [] => none
  | e :: es =>
    match listeners e with
    | some s => some s
    | none => settleFirst listeners es

/-- The wiring resolves on `e` and on no other event. -/
def resolvesOnlyOn (listeners : DBEvent → Option Settlement) (e : DBEvent) : Prop :=
  ∀ e', listeners e' = some Settlement.resolve ↔ e' = e

instance (listeners : DBEvent → Option Settlement) (e : DBEvent) :
    Decidable (resolvesOnlyOn listeners e) :=
  inferInstanceAs (Decidable (∀ e', _ ↔ _))

/-! ## The underlying object store

The engine (IndexedDB) is an external collaborator; per the boundary
description it is an ACID key/value store whose `getAllKeys` enumerates keys
in ascending key order. All keys flowing through this layer's `setItem` are
strings, so the store is an association list of `String × α` kept sorted in
ascending key order, and the request primitives are: -/

/-- Ascending key comparison on the code points of two string keys (the
engine's ordering of string keys). -/
def strLtbAux : List Char → List Char → Bool
  | [], [] => false
  | [], _ :: _ => true
  | _ :: _, [] => false
  | c :: cs, d :: ds =>
    if c.toNat < d.toNat then true
    else if c.toNat = d.toNat then strLtbAux cs ds
    else false

def strLtb (a b : String) : Bool :=
  strLtbAux a.data b.data

/-- Engine `put(value, key)`: overwrites the entry at `key` in place if
present, otherwise inserts it at its position in ascending key order. -/
def storePut {α : Type} (k : String) (v : α) : List (String × α) → List (String × α)
  | [] => [(k, v)]
  | (k', v') :: rest =>
    if strLtb k k' then (k, v) :: (k', v') :: rest
    else if k = k' then (k, v) :: rest
    else (k', v') :: storePut k v rest

/-- Engine `get(key)`: the stored value, or `none` (JS `undefined`) when the
key is unset — firing the request's `success` event either way. -/
def storeGet {α : Type} (k : String) : List (String × α) → Option α
  | [] => none
  | (k', v') :: rest => if k' = k then some v' else storeGet k rest

/-- Engine `delete(key)`: removes the entry at `key` if present; succeeds
either way. -/
def storeDelete {α : Type} (k : String) (s : List (String × α)) : List (String × α) :=
  s.filter fun e => e.1 ≠ k

/-- Engine `getAllKeys()`: all keys in store order. -/
def storeKeys {α : Type} (s : List (String × α)) : List String :=
  s.map Prod.fst

/-! ## Instance state and the public operations

`createInstance` closes over `let db: IDBDatabase | undefined` and the
persisted database contents. `connected` models whether `db` currently holds
a handle; the persisted `store` outlives `close()`. Every operation begins
with `db = db ?? (await connect(config))`, so it leaves the instance
connected. -/

structure InstanceState (α : Type) where
  connected : Bool
  store : List (String × α)
  deriving DecidableEq, Repr

/-- A freshly created instance: no connection, nothing persisted yet (for a
database that did not exist before). -/
def freshInstance (α : Type) : InstanceState α :=
  { connected := false, store := [] }

/-- Operation `setItem(key, value)`: connect if needed, `put(value, key)`, resolve on
transaction complete with no value. -/
def setItemOp {α : Type} (k : String) (v : α) (s : InstanceState α) :
    InstanceState α :=
  { connected := true, store := storePut k v s.store }

/-- Operation `getItem(key)`: connect if needed, `get(key)`, resolve on request success
with the request result (`none` = `undefined` when the key is unset). -/
def getItemOp {α : Type} (k : String) (s : InstanceState α) :
    Option α × InstanceState α :=
  (storeGet k s.store, { s with connected := true })

/-- Operation `removeItem(key)`: connect if needed, `delete(key)`, resolve on
transaction complete. -/
def removeItemOp {α : Type} (k : String) (s : InstanceState α) :
    InstanceState α :=
  { connected := true, store := storeDelete k s.store }

/-- Operation `clear()`: connect if needed, `clear()`, resolve on request success. -/
def clearOp {α : Type} (s : InstanceState α) : InstanceState α :=
  { connected := true, store := [] }

/-- Operation `keys()`: connect if needed, `getAllKeys()`, resolve on request success. -/
def keysOp {α : Type} (s : InstanceState α) : List String × InstanceState α :=
  (storeKeys s.store, { s with connected := true })

/-- Operation `size()`: connect if needed, `count()`, resolve on request success. -/
def sizeOp {α : Type} (s : InstanceState α) : Nat × InstanceState α :=
  (s.store.length, { s with connected := true })

/-- Operation `close()` (src lines 251-256): `if (db) { db.close(); db = undefined; }`.
Synchronous; touches only the held handle, never the persisted contents. -/
def closeOp {α : Type} (s : InstanceState α) : InstanceState α :=
  if s.connected then { s with connected := false } else s

/-! ## The async iterator (src lines 195-224)

`asyncIterator()` closes over `let allKeys: IDBValidKey[] | null = null` and
`let index = 0`. `next()` fetches the key list once, then per call either
signals `done` (when `index >= allKeys.length`), or reads
`key = allKeys[index++]` and — because of the `if (key)` truthiness guard —
yields `[key, await getItem(key)]` only when `key` is truthy, returning
`done` for a falsy key (the empty string) with `index` already advanced.
`return()` just produces `done` and touches neither variable. -/

structure IterState where
  allKeys : Option (List String)
  index : Nat
  deriving DecidableEq, Repr

/-- The iterator's variables as initialised by `asyncIterator()`. -/
def iterInit : IterState := { allKeys := none, index := 0 }

inductive IterRes (α : Type) where
  /-- Result `{ done: true, value: undefined }`. -/
  | done
  /-- Result `{ done: false, value: [key, value] }`; the value is the `getItem`
  result, `none` when the key is unset. -/
  | yield (key : String) (value : Option α)
  deriving DecidableEq, Repr

/-- One `next()` call against a store. The store itself is read-only here
(`keys` and `getItem` do not mutate it); the instance's connection side
effects are irrelevant to the cursor and elided. -/
def iterNext {α : Type} (store : List (String × α)) (it : IterState) :
    IterRes α × IterState :=
  let ks := it.allKeys.getD (storeKeys store)
  if h : it.index < ks.length then
    let key := ks.get ⟨it.index, h⟩
    if key = "" then
      (IterRes.done, { allKeys := some ks, index := it.index + 1 })
    else
      (IterRes.yield key (storeGet key store), { allKeys := some ks, index := it.index + 1 })
  else
    (IterRes.done, { allKeys := some ks, index := it.index })

/-- The iterator's `return()`: resolves with `{ done: true, value: undefined }`
and leaves `allKeys` and `index` untouched. -/
def iterReturn {α : Type} (it : IterState) : IterRes α × IterState :=
  (IterRes.done, it)

/-- Run `n` successive `next()` calls, collecting the results and counting
how many of the calls fetched the key list (`allKeys` still `null`). -/
def iterTrace {α : Type} (store : List (String × α)) :
    IterState → Nat → List (IterRes α) × Nat
  | _, 0 => ([], 0)
  | it, n + 1 =>
    let fetches := if it.allKeys.isNone then 1 else 0
    let step := iterNext store it
    let rest := iterTrace store step.2 n
    (step.1 :: rest.1, fetches + rest.2)

/-! ## Concurrent first connect

Every operation starts with `db = db ?? (await connect(config))`: read `db`;
if it is unset, call `connect` (issuing `indexedDB.open`) and suspend at the
`await`; when the connect resolves, assign the handle to `db` and go on.
Two operations are modelled as tasks stepped by an explicit schedule on the
single-threaded event loop. -/

inductive TaskPhase where
  /-- about to evaluate `db = db ?? (await connect(config))` -/
  | start
  /-- called `connect`, suspended at the `await` -/
  | awaiting
  /-- past the connect line (or reused the existing handle) -/
  | finished
  deriving DecidableEq, Repr

structure ConnRace where
  /-- whether the instance's `db` variable holds a connection -/
  dbHeld : Bool
  /-- how many `indexedDB.open` calls have been issued -/
  opens : Nat
  t1 : TaskPhase
  t2 : TaskPhase
  deriving DecidableEq, Repr

/-- One step of a single task: `start` reuses `db` when held, otherwise
issues its own `connect` and suspends; `awaiting` resumes when that connect
resolves, assigning `db`. -/
def stepTask (dbHeld : Bool) (opens : Nat) :
    TaskPhase → Bool × Nat × TaskPhase
  | .start =>
    if dbHeld then (dbHeld, opens, .finished)
    else (dbHeld, opens + 1, .awaiting)
  | .awaiting => (true, opens, .finished)
  | .finished => (dbHeld, opens, .finished)

/-- Scheduler step: `true` runs task 1, `false` runs task 2. -/
def raceStep (s : ConnRace) (choice : Bool) : ConnRace :=
  if choice then
    let r := stepTask s.dbHeld s.opens s.t1
    { dbHeld := r.1, opens := r.2.1, t1 := r.2.2, t2 := s.t2 }
  else
    let r := stepTask s.dbHeld s.opens s.t2
    { dbHeld := r.1, opens := r.2.1, t1 := s.t1, t2 := r.2.2 }

def raceRun (s : ConnRace) : List Bool → ConnRace
  | [] => s
  | c :: cs => raceRun (raceStep s c) cs

/-- Two operations issued on a fresh instance, neither yet run. -/
def raceInit : ConnRace :=
  { dbHeld := false, opens := 0, t1 := .start, t2 := .start }

/-! ## Store lemmas -/

theorem strLtbAux_irrefl (l : List Char) : strLtbAux l l = false := by
  induction l with
  | nil => rfl
  | cons c cs ih => simp [strLtbAux, ih]

theorem strLtb_irrefl (k : String) : strLtb k k = false := by
  simp [strLtb, strLtbAux_irrefl]

/-- Putting the same key twice: the second put lands exactly where the first
did, so the intermediate value is immaterial. -/
theorem storePut_storePut {α : Type} (k : String) (v1 v2 : α)
    (s : List (String × α)) :
    storePut k v2 (storePut k v1 s) = storePut k v2 s := by
  induction s with
  | nil => simp [storePut, strLtb_irrefl]
  | cons hd tl ih =>
    obtain ⟨k', v'⟩ := hd
    by_cases h1 : strLtb k k' = true
    · simp [storePut, h1, strLtb_irrefl]
    · by_cases h2 : k = k'
      · subst h2
        simp [storePut, h1, strLtb_irrefl]
      · simp [storePut, h1, h2, ih]

/-- The length of the store after a put does not depend on the value put. -/
theorem storePut_length_indep {α : Type} (k : String) (v1 v2 : α)
    (s : List (String × α)) :
    (storePut k v1 s).length = (storePut k v2 s).length := by
  induction s with
  | nil => rfl
  | cons hd tl ih =>
    obtain ⟨k', v'⟩ := hd
    by_cases h1 : strLtb k k' = true
    · simp [storePut, h1]
    · by_cases h2 : k = k'
      · simp [storePut, h1, h2, strLtb_irrefl]
      · simp [storePut, h1, h2, ih]

/-- Reading back the key just put yields the value just put. -/
theorem storeGet_storePut_self {α : Type} (k : String) (v : α)
    (s : List (String × α)) :
    storeGet k (storePut k v s) = some v := by
  induction s with
  | nil => simp [storePut, storeGet]
  | cons hd tl ih =>
    obtain ⟨k', v'⟩ := hd
    by_cases h1 : strLtb k k' = true
    · simp [storePut, h1, storeGet]
    · by_cases h2 : k = k'
      · simp [storePut, h1, h2, strLtb_irrefl, storeGet]
      · simp [storePut, h1, h2, storeGet, Ne.symm h2, ih]

/-- Reading an unset key yields `none`. -/
theorem storeGet_eq_none {α : Type} (k : String) (s : List (String × α))
    (h : k ∉ storeKeys s) :
    storeGet k s = none := by
  induction s with
  | nil => rfl
  | cons hd tl ih =>
    obtain ⟨k', v'⟩ := hd
    rw [storeKeys, List.map_cons, List.mem_cons, not_or] at h
    have hne : k' ≠ k := fun hk => h.1 hk.symm
    rw [storeGet, if_neg hne]
    exact ih h.2

/-! ## Claim C1 — which event resolves each operation's promise -/

/-- C1 counterexample: `clear()` resolves on the request's `success` event
and attaches no listener at all for the transaction's `complete` event, so
the claim that every write operation resolves only on transaction completion
is false at the `clear` operation. -/
theorem clear_resolves_on_requestSuccess :
    clearListeners DBEvent.requestSuccess = some Settlement.resolve ∧
    clearListeners DBEvent.txComplete = none :=
  ⟨rfl, rfl⟩

/-- C1 (amended): `setItem` and `removeItem` resolve only on the
transaction's `complete` event; `clear` resolves only on the request's
`success` event; the read operations `getItem`, `keys` and `size` resolve
only on the request's `success` event. -/
theorem resolution_events :
    resolvesOnlyOn setItemListeners DBEvent.txComplete ∧
    resolvesOnlyOn removeItemListeners DBEvent.txComplete ∧
    resolvesOnlyOn clearListeners DBEvent.requestSuccess ∧
    resolvesOnlyOn getItemListeners DBEvent.requestSuccess ∧
    resolvesOnlyOn keysListeners DBEvent.requestSuccess ∧
    resolvesOnlyOn sizeListeners DBEvent.requestSuccess := by
  decide

/-! ## Claim C2 — which error events reject a write's promise -/

/-- C2 counterexample: `clear()` attaches no listener for the
transaction-level `error` event (contrast `setItem`, which does), so the
claim that every write operation listens for both error events is false at
the `clear` operation. -/
theorem clear_ignores_txError :
    clearListeners DBEvent.txError = none ∧
    setItemListeners DBEvent.txError = some Settlement.reject :=
  ⟨rfl, rfl⟩

/-- C2 (amended): `setItem` and `removeItem` listen for both the request
`error` and the transaction `error` event and their promise rejects when
either fires first; `clear` listens only for the request `error` event and
rejects when it fires first. -/
theorem write_rejection_events :
    (setItemListeners DBEvent.requestError = some Settlement.reject ∧
      setItemListeners DBEvent.txError = some Settlement.reject ∧
      (∀ es, settleFirst setItemListeners (DBEvent.requestError :: es) =
        some Settlement.reject) ∧
      (∀ es, settleFirst setItemListeners (DBEvent.txError :: es) =
        some Settlement.reject)) ∧
    (removeItemListeners DBEvent.requestError = some Settlement.reject ∧
      removeItemListeners DBEvent.txError = some Settlement.reject ∧
      (∀ es, settleFirst removeItemListeners (DBEvent.requestError :: es) =
        some Settlement.reject) ∧
      (∀ es, settleFirst removeItemListeners (DBEvent.txError :: es) =
        some Settlement.reject)) ∧
    (clearListeners DBEvent.requestError = some Settlement.reject ∧
      clearListeners DBEvent.txError = none ∧
      (∀ es, settleFirst clearListeners (DBEvent.requestError :: es) =
        some Settlement.reject)) :=
  ⟨⟨rfl, rfl, fun _ => rfl, fun _ => rfl⟩,
   ⟨rfl, rfl, fun _ => rfl, fun _ => rfl⟩,
   rfl, rfl, fun _ => rfl⟩

/-! ## Claim C3 — configuration defaulting -/

/-- C3 counterexample: the effective configuration of an instance created
with no arguments carries database name `"smonn_storage"`, not
`"app_storage"` as the claim states. -/
theorem default_databaseName_value :
    (assignOptions {}).databaseName = "smonn_storage" ∧
    "smonn_storage" ≠ "app_storage" :=
  ⟨rfl, by decide⟩

/-- C3 (amended): every unset field of a partial configuration is defaulted,
every set field is kept, and the effective configuration of an instance
created with no arguments is
`{ databaseName := "smonn_storage", databaseVersion := 1, tableName := "kv" }`. -/
theorem assignOptions_defaults :
    assignOptions {} = defaultOptions ∧
    defaultOptions =
      { databaseName := "smonn_storage", databaseVersion := 1, tableName := "kv" } ∧
    (∀ dv tn, (assignOptions
      { databaseName := none, databaseVersion := dv, tableName := tn }).databaseName =
        "smonn_storage") ∧
    (∀ x dv tn, (assignOptions
      { databaseName := some x, databaseVersion := dv, tableName := tn }).databaseName = x) ∧
    (∀ dn tn, (assignOptions
      { databaseName := dn, databaseVersion := none, tableName := tn }).databaseVersion = 1) ∧
    (∀ dn x tn, (assignOptions
      { databaseName := dn, databaseVersion := some x, tableName := tn }).databaseVersion = x) ∧
    (∀ dn dv, (assignOptions
      { databaseName := dn, databaseVersion := dv, tableName := none }).tableName = "kv") ∧
    (∀ dn dv x, (assignOptions
      { databaseName := dn, databaseVersion := dv, tableName := some x }).tableName = x) :=
  ⟨rfl, rfl, fun _ _ => rfl, fun _ _ _ => rfl, fun _ _ => rfl, fun _ _ _ => rfl,
   fun _ _ => rfl, fun _ _ _ => rfl⟩

/-! ## Claim C4 — construction-time validation -/

/-- C4 counterexample: a configuration whose `databaseVersion` is the
non-integer number `1/2 > 0` passes validation (`createInstance` checks only
`typeof version === "number" && version > 0`), whereas the claim requires
construction to throw for every non-integer version. -/
theorem half_version_passes_validation :
    createInstanceChecks
      { databaseName := "db", databaseVersion := mkRat 1 2, tableName := "kv" } =
      Except.ok
        { databaseName := "db", databaseVersion := mkRat 1 2, tableName := "kv" } ∧
    (mkRat 1 2).den ≠ 1 :=
  ⟨rfl, by decide⟩

/-- C4 (amended): construction validates synchronously and throws exactly
when the database name is empty, or the database version is not a number
greater than zero (integrality is not checked), or the table name is empty. -/
theorem createInstance_validation (opts : PartialStorageOptions) :
    ((∃ msg, createInstanceChecks (assignOptions opts) = Except.error msg) ↔
      ¬(0 < (assignOptions opts).databaseName.length ∧
        0 < (assignOptions opts).databaseVersion ∧
        0 < (assignOptions opts).tableName.length)) ∧
    (createInstanceChecks (assignOptions opts) = Except.ok (assignOptions opts) ↔
      (0 < (assignOptions opts).databaseName.length ∧
        0 < (assignOptions opts).databaseVersion ∧
        0 < (assignOptions opts).tableName.length)) := by
  unfold createInstanceChecks
  split_ifs with h1 h2 h3 <;> simp_all

/-! ## Claim C5 — reading an unset key -/

/-- C5: for a key not present in the table, `getItem` resolves with the
absent marker (`none`, i.e. `undefined`) rather than rejecting, and the
instance's store — hence `size()` — is unchanged by the read. -/
theorem getItem_absent {α : Type} (s : InstanceState α) (k : String)
    (h : k ∉ storeKeys s.store) :
    (getItemOp k s).1 = none ∧
    (sizeOp (getItemOp k s).2).1 = (sizeOp s).1 ∧
    (getItemOp k s).2.store = s.store :=
  ⟨storeGet_eq_none k s.store h, rfl, rfl⟩

/-- C5 witness: reading key `"b"` of a store holding only `"a"`. -/
theorem getItem_absent_witness :
    ("b" ∉ storeKeys ([("a", 1)] : List (String × Nat))) ∧
    ((getItemOp "b" (⟨false, [("a", 1)]⟩ : InstanceState Nat)).1 = none ∧
      (sizeOp (getItemOp "b" (⟨false, [("a", 1)]⟩ : InstanceState Nat)).2).1 =
        (sizeOp (⟨false, [("a", 1)]⟩ : InstanceState Nat)).1 ∧
      (getItemOp "b" (⟨false, [("a", 1)]⟩ : InstanceState Nat)).2.store =
        [("a", 1)]) :=
  ⟨by decide, getItem_absent ⟨false, [("a", 1)]⟩ "b" (by decide)⟩

/-! ## Claim C7 — close is synchronous, idempotent and non-destructive -/

/-- C7: `close()` is idempotent, clears the held connection reference, is a
no-op when no connection is held, and never touches the persisted store; the
next `size()` after a close transparently reconnects and still reports the
prior count. -/
theorem close_spec {α : Type} (s : InstanceState α) (st : List (String × α)) :
    closeOp (closeOp s) = closeOp s ∧
    (closeOp s).connected = false ∧
    (closeOp s).store = s.store ∧
    closeOp ({ connected := false, store := st } : InstanceState α) =
      { connected := false, store := st } ∧
    (sizeOp (closeOp s)).1 = (sizeOp s).1 ∧
    (sizeOp (closeOp s)).2.connected = true := by
  obtain ⟨c, store⟩ := s
  cases c <;> simp [closeOp, sizeOp]

/-! ## Claim C9 — setItem overwrites in place -/

/-- C9: running `setItem k v1` then `setItem k v2` overwrites in place:
`size()` after the second call equals `size()` before it, and `getItem k`
then resolves with `v2`. -/
theorem setItem_overwrites {α : Type} (s : InstanceState α) (k : String)
    (v1 v2 : α) :
    (sizeOp (setItemOp k v2 (setItemOp k v1 s))).1 =
      (sizeOp (setItemOp k v1 s)).1 ∧
    (getItemOp k (setItemOp k v2 (setItemOp k v1 s))).1 = some v2 := by
  constructor
  · show (storePut k v2 (storePut k v1 s.store)).length = (storePut k v1 s.store).length
    rw [storePut_storePut]
    exact (storePut_length_indep k v1 v2 s.store).symm
  · show storeGet k (storePut k v2 (storePut k v1 s.store)) = some v2
    rw [storePut_storePut]
    exact storeGet_storePut_self k v2 s.store

/-! ## Claim C10 — the iterator's return() leaves the cursor untouched -/

/-- C10: `return()` resolves with `done` without touching `allKeys` or
`index`, so a `next()` after `return()` behaves exactly as it would have
without the `return()` call — `return()` does not exhaust the iterator. -/
theorem iterReturn_frame {α : Type} (store : List (String × α)) (it : IterState) :
    (iterReturn (α := α) it).1 = IterRes.done ∧
    (iterReturn (α := α) it).2 = it ∧
    iterNext store (iterReturn (α := α) it).2 = iterNext store it :=
  ⟨rfl, rfl, rfl⟩

/-! ## Claim C6 — enumeration over the cached key snapshot -/

/-- Once the index has reached the snapshot length, every further advance
yields `done`, changes nothing and fetches nothing. -/
theorem iterTrace_exhausted {α : Type} (store : List (String × α))
    (ks : List String) (i m : Nat) (h : ks.length ≤ i) :
    iterTrace store { allKeys := some ks, index := i } m =
      (List.replicate m IterRes.done, 0) := by
  induction m with
  | zero => rfl
  | succ m ih =>
    have hstep : iterNext store { allKeys := some ks, index := i } =
        (IterRes.done, { allKeys := some ks, index := i }) := by
      rw [iterNext]
      simp [Nat.not_lt.2 h]
    simp [iterTrace, hstep, ih, List.replicate_succ]

/-- From a cached snapshot `ks` of truthy keys at position `i`, the next
`ks.length - i` advances yield the remaining `(key, value)` pairs in
snapshot order, after which `done` repeats; no advance re-fetches the key
list. -/
theorem iterTrace_cached {α : Type} (store : List (String × α))
    (ks : List String) (i n m : Nat) (hlen : i + n = ks.length)
    (hne : "" ∉ ks) :
    iterTrace store { allKeys := some ks, index := i } (n + m) =
      (List.drop i (ks.map fun k => IterRes.yield k (storeGet k store)) ++
        List.replicate m IterRes.done, 0) := by
  induction n generalizing i with
  | zero =>
    have hd : List.drop i (ks.map fun k => IterRes.yield k (storeGet k store)) = [] :=
      List.drop_eq_nil_of_le (by simpa using (by omega : ks.length ≤ i))
    rw [Nat.zero_add, iterTrace_exhausted store ks i m (by omega), hd]
    simp
  | succ n ih =>
    have hi : i < ks.length := by omega
    have hkey : ¬ ks[i] = "" := by
      intro hk
      exact hne (hk ▸ List.getElem_mem hi)
    have hstep : iterNext store { allKeys := some ks, index := i } =
        (IterRes.yield ks[i] (storeGet ks[i] store),
         { allKeys := some ks, index := i + 1 }) := by
      rw [iterNext]
      simp [hi, hkey, List.get_eq_getElem]
    have hrest := ih (i + 1) (by omega)
    have hmi : i < (ks.map fun k => IterRes.yield k (storeGet k store)).length := by
      simpa using hi
    have hdrop : List.drop i (ks.map fun k => IterRes.yield k (storeGet k store)) =
        IterRes.yield ks[i] (storeGet ks[i] store) ::
          List.drop (i + 1) (ks.map fun k => IterRes.yield k (storeGet k store)) := by
      rw [List.drop_eq_getElem_cons hmi]
      simp
    rw [Nat.add_right_comm n 1 m]
    simp only [iterTrace, hstep, hrest, hdrop]
    simp

/-- The first advance and every later advance behave identically whether the
snapshot is still unfetched or already cached; the only difference is the
single key-list fetch performed by the first advance. -/
theorem iterTrace_fresh {α : Type} (store : List (String × α)) (n : Nat) :
    iterTrace store iterInit (n + 1) =
      ((iterTrace store { allKeys := some (storeKeys store), index := 0 } (n + 1)).1,
       1 + (iterTrace store { allKeys := some (storeKeys store), index := 0 } (n + 1)).2) := by
  have hnext : iterNext store { allKeys := none, index := 0 } =
      iterNext store { allKeys := some (storeKeys store), index := 0 } := rfl
  simp [iterTrace, iterInit, hnext]

/-- C6 counterexample: over the reachable store `{"" -> 1, "b" -> 2}` (the
empty string is a valid key), the snapshot is `["", "b"]`, yet the first
advance signals completion (the `if (key)` truthiness guard) with the index
already moved to 1 — not a pair per snapshot key, and completion before the
index reaches the snapshot length — and the advance after that completion
yields the pair `("b", 2)` instead of completing again. -/
theorem emptyKey_breaks_enumeration :
    (iterNext (storePut "" 1 (storePut "b" 2 ([] : List (String × Nat))))
      iterInit).1 = IterRes.done ∧
    (iterNext (storePut "" 1 (storePut "b" 2 ([] : List (String × Nat))))
      iterInit).2 = { allKeys := some ["", "b"], index := 1 } ∧
    (iterNext (storePut "" 1 (storePut "b" 2 ([] : List (String × Nat))))
      (iterNext (storePut "" 1 (storePut "b" 2 ([] : List (String × Nat))))
        iterInit).2).1 = IterRes.yield "b" (some 2) := by
  refine ⟨?_, ?_, ?_⟩ <;> decide

/-- C6 (amended): provided no key in the snapshot is falsy (the empty
string), the sequence yields exactly one `(key, getItem key)` pair per
snapshot key, in snapshot order, then signals completion when the index
reaches the key-list length, stays completed on every further advance, and
fetches the key list exactly once (on the first advance, never again). -/
theorem asyncIterator_enumeration {α : Type} (store : List (String × α))
    (m : Nat) (hne : "" ∉ storeKeys store) :
    iterTrace store iterInit ((storeKeys store).length + m + 1) =
      ((storeKeys store).map (fun k => IterRes.yield k (storeGet k store)) ++
        List.replicate (m + 1) IterRes.done, 1) := by
  rw [iterTrace_fresh store ((storeKeys store).length + m)]
  have h := iterTrace_cached store (storeKeys store) 0 (storeKeys store).length
    (m + 1) (by omega) hne
  rw [List.drop_zero] at h
  have harg : (storeKeys store).length + (m + 1) =
      (storeKeys store).length + m + 1 := by omega
  rw [harg] at h
  rw [h]
  simp

/-- C6 witness: the P8 scenario — keys `a -> 1, b -> 2`; four advances give
the two pairs in order, then completion twice, with one key-list fetch. -/
theorem asyncIterator_enumeration_witness :
    ("" ∉ storeKeys (storePut "b" 2 (storePut "a" 1 ([] : List (String × Nat))))) ∧
    iterTrace (storePut "b" 2 (storePut "a" 1 ([] : List (String × Nat)))) iterInit
        ((storeKeys (storePut "b" 2 (storePut "a" 1
          ([] : List (String × Nat))))).length + 1 + 1) =
      ((storeKeys (storePut "b" 2 (storePut "a" 1
          ([] : List (String × Nat))))).map
          (fun k => IterRes.yield k
            (storeGet k (storePut "b" 2 (storePut "a" 1 [])))) ++
        List.replicate 2 IterRes.done, 1) ∧
    iterTrace (storePut "b" 2 (storePut "a" 1 ([] : List (String × Nat)))) iterInit 4 =
      ([IterRes.yield "a" (some 1), IterRes.yield "b" (some 2),
        IterRes.done, IterRes.done], 1) := by
  refine ⟨by decide,
    asyncIterator_enumeration (storePut "b" 2 (storePut "a" 1 [])) 1 (by decide),
    by decide⟩

/-! ## Claim C8 — concurrent first connect is not coalesced -/

/-- C8 counterexample: the schedule that starts both operations before the
first connect resolves (task 1 begins, task 2 begins, then both connects
resolve) runs both operations to completion but issues two
`indexedDB.open` calls — the claim says only one connection is opened. -/
theorem concurrent_connect_opens_two :
    (raceRun raceInit [true, false, true, false]).opens = 2 ∧
    (raceRun raceInit [true, false, true, false]).t1 = TaskPhase.finished ∧
    (raceRun raceInit [true, false, true, false]).t2 = TaskPhase.finished ∧
    (raceRun raceInit [true, false, true, false]).dbHeld = true := by
  refine ⟨?_, ?_, ?_, ?_⟩ <;> decide

/-- C8 (amended): concurrent first-open calls are not coalesced — each
operation that still observes `db` unset issues its own connect, so two
operations issued before the first connection resolves open two
connections; an operation that observes the handle already assigned issues
none (lazy reuse holds only sequentially). -/
theorem connect_not_coalesced :
    (raceRun raceInit [true, false]).opens = 2 ∧
    (∀ opens, stepTask true opens TaskPhase.start =
      (true, opens, TaskPhase.finished)) ∧
    (raceRun raceInit [true, true, false]).opens = 1 ∧
    (raceRun raceInit [true, true, false]).t1 = TaskPhase.finished ∧
    (raceRun raceInit [true, true, false]).t2 = TaskPhase.finished :=
  ⟨by decide, fun _ => rfl, by decide, by decide, by decide⟩

end Storage
